import Mathlib

/-!
Verification of the method-channel plugin in src/linux/cozy_data_plugin.cc.

The plugin registers a method channel named "cozy_data" and handles method
calls: "getPlatformVersion" is answered with a success response carrying
"Linux <utsname.version>", every other name with a not-implemented response.
-/

/-- Fields of `struct utsname` (sys/utsname.h), each a string. -/
structure Utsname where
  sysname : String
  nodename : String
  release : String
  version : String
  machine : String
  deriving DecidableEq, Repr

/-- `struct utsname uname_data = {};` zero-initialises the struct: every
string field reads as the empty string. -/
def utsnameZeroInit : Utsname :=
  ⟨"", "", "", "", ""⟩

/-- Outcome of the `uname(&uname_data)` system call: on success the kernel
fills the struct, on failure the struct is left as it was. -/
inductive UnameOutcome where
  | ok (filled : Utsname)
  | fail
  deriving DecidableEq, Repr

/-- Contents of `uname_data` after `uname(&uname_data)` was called on the
zero-initialised struct. -/
def unameResult : UnameOutcome → Utsname
  | .ok filled => filled
  | .fail => utsnameZeroInit

/-- The only FlValue shape this plugin builds (`fl_value_new_string`). -/
inductive FlValue where
  | string (s : String)
  deriving DecidableEq, Repr

/-- The response shapes of the flutter_linux method-channel API: success,
not-implemented, and the error shape (which this plugin never builds). -/
inductive FlMethodResponse where
  | success (value : FlValue)
  | notImplemented
  | error (code : String) (message : String)
  deriving DecidableEq, Repr

/-- Tag of a response, for statements about response kinds only. -/
inductive ResponseKind where
  | success
  | notImplemented
  | error
  deriving DecidableEq, Repr

def responseKind : FlMethodResponse → ResponseKind
  | .success _ => .success
  | .notImplemented => .notImplemented
  | .error _ _ => .error

/-- `get_platform_version`: zero-initialise a utsname struct, call uname,
format `"Linux %s"` with the `version` field, wrap as a success response. -/
def get_platform_version (o : UnameOutcome) : FlMethodResponse :=
  .success (.string ("Linux " ++ (unameResult o).version))

/-- Value of the local variable `response` in
`cozy_data_plugin_handle_method_call` after the if/else chain, just before
`fl_method_call_respond` is called.  It starts as `nullptr` (`none`) and is
assigned on each branch. -/
def handle_response_slot (method : String) (o : UnameOutcome) : Option FlMethodResponse :=
  if method = "getPlatformVersion" then some (get_platform_version o)
  else some .notImplemented

/-- The responses passed to `fl_method_call_respond` while handling one
call: the single respond at the end of the handler, with the value of the
`response` variable at that point. -/
def handle_method_call_sends (method : String) (o : UnameOutcome) : List FlMethodResponse :=
  match handle_response_slot method o with
  | some r => [r]
  | none => []

/-- `cozy_data_plugin_handle_method_call`: dispatch on the method name.
The argument payload of the call is never read. -/
def cozy_data_plugin_handle_method_call (method : String) (args : FlValue)
    (o : UnameOutcome) : FlMethodResponse :=
  if method = "getPlatformVersion" then get_platform_version o
  else .notImplemented

/-- A `CozyDataPlugin` instance holds no data beyond its GObject parent. -/
structure CozyDataPlugin where
  deriving Repr

/-- One inbound method call: name, argument payload, and the uname outcome
the host OS would produce at that moment. -/
structure MethodCallEvent where
  method : String
  args : FlValue
  outcome : UnameOutcome
  deriving DecidableEq, Repr

/-- `method_call_cb`: the callback installed on the channel; it forwards to
`cozy_data_plugin_handle_method_call` on the plugin instance and returns the
(unchanged) instance together with the response sent. -/
def method_call_cb (self : CozyDataPlugin) (ev : MethodCallEvent) :
    CozyDataPlugin × FlMethodResponse :=
  (self, cozy_data_plugin_handle_method_call ev.method ev.args ev.outcome)

/-- Run a sequence of calls against one plugin instance, threading the
instance through and collecting the responses in order. -/
def runCalls (self : CozyDataPlugin) : List MethodCallEvent → CozyDataPlugin × List FlMethodResponse
  | [] => (self, [])
  | ev :: rest =>
      let step := method_call_cb self ev
      let tail := runCalls step.1 rest
      (tail.1, step.2 :: tail.2)

/-- A method channel as the registration code observes it: its name and the
handler installed on it (if any). -/
structure FlMethodChannel where
  name : String
  handler : Option (CozyDataPlugin → MethodCallEvent → CozyDataPlugin × FlMethodResponse)

/-- `fl_method_channel_new`: a fresh channel with the given name and no
handler yet. -/
def fl_method_channel_new (name : String) : FlMethodChannel :=
  { name := name, handler := none }

/-- `fl_method_channel_set_method_call_handler`: install a handler. -/
def fl_method_channel_set_method_call_handler (ch : FlMethodChannel)
    (cb : CozyDataPlugin → MethodCallEvent → CozyDataPlugin × FlMethodResponse) :
    FlMethodChannel :=
  { ch with handler := some cb }

/-- `cozy_data_plugin_register_with_registrar`: create the channel named
"cozy_data" and install `method_call_cb` on it. -/
def cozy_data_plugin_register_with_registrar : FlMethodChannel :=
  fl_method_channel_set_method_call_handler (fl_method_channel_new "cozy_data")
    method_call_cb

/-- A host whose kernel version, in the conventional `uname -r` sense, is
"5.15.0-generic": that string is the `release` field, while the `version`
field carries the kernel build string. -/
def c3_host : Utsname :=
  ⟨"Linux", "host", "5.15.0-generic", "#1 SMP Tue Jan 1 00:00:00 UTC 2030", "x86_64"⟩

/-- C1: for every method name other than exactly "getPlatformVersion"
(including "ping" and the empty string), the dispatcher produces a
not-implemented response. -/
theorem C1_unrecognized_methods_not_implemented (m : String)
    (h : m ≠ "getPlatformVersion") (args : FlValue) (o : UnameOutcome) :
    cozy_data_plugin_handle_method_call m args o = .notImplemented := by
  simp [cozy_data_plugin_handle_method_call, h]

theorem C1_unrecognized_methods_not_implemented_witness :
    ("" : String) ≠ "getPlatformVersion" ∧
      cozy_data_plugin_handle_method_call "" (.string "x") .fail
        = .notImplemented :=
  ⟨by decide, C1_unrecognized_methods_not_implemented "" (by decide) (.string "x") .fail⟩

/-- C2: dispatching "getPlatformVersion" yields a success response whose
payload is a string; the payload can be empty only if the OS version
facility itself yielded empty data (in fact it is never empty, which makes
that condition hold vacuously). -/
theorem C2_get_platform_version_yields_success_string (args : FlValue)
    (o : UnameOutcome) :
    ∃ s : String,
      cozy_data_plugin_handle_method_call "getPlatformVersion" args o
          = .success (.string s) ∧
        (s = "" → (unameResult o).version = "") := by
  refine ⟨"Linux " ++ (unameResult o).version, ?_, ?_⟩
  · simp [cozy_data_plugin_handle_method_call, get_platform_version]
  · intro h
    have hlen := congrArg String.length h
    simp [String.length_append] at hlen
    exact absurd hlen.1 (by decide)

/-- C3 counterexample: on a host whose kernel version (the `uname -r`
release string) is "5.15.0-generic", the payload is built from the utsname
`version` field, so the response is not `Success("Linux 5.15.0-generic")`. -/
theorem C3_counterexample :
    c3_host.release = "5.15.0-generic" ∧
      cozy_data_plugin_handle_method_call "getPlatformVersion" (.string "")
          (.ok c3_host)
        ≠ .success (.string "Linux 5.15.0-generic") := by
  constructor
  · rfl
  · decide

/-- C3 (amended): the payload is "Linux " followed by the utsname `version`
field; in particular on a host whose `version` field reads
"5.15.0-generic", dispatching "getPlatformVersion" yields
`Success("Linux 5.15.0-generic")`. -/
theorem C3_amended_version_field_prefix_format (u : Utsname)
    (h : u.version = "5.15.0-generic") :
    cozy_data_plugin_handle_method_call "getPlatformVersion" (.string "")
        (.ok u)
      = .success (.string "Linux 5.15.0-generic") := by
  simp [cozy_data_plugin_handle_method_call, get_platform_version, unameResult, h]

theorem C3_amended_version_field_prefix_format_witness :
    cozy_data_plugin_handle_method_call "getPlatformVersion" (.string "")
        (.ok ⟨"Linux", "host", "5.15.0-58-generic", "5.15.0-generic", "x86_64"⟩)
      = .success (.string "Linux 5.15.0-generic") :=
  C3_amended_version_field_prefix_format
    ⟨"Linux", "host", "5.15.0-58-generic", "5.15.0-generic", "x86_64"⟩ rfl

/-- C4: on every dispatch path exactly one response is passed to
`fl_method_call_respond` — never zero and never more than one. -/
theorem C4_exactly_one_response_sent (method : String) (o : UnameOutcome) :
    (handle_method_call_sends method o).length = 1 := by
  unfold handle_method_call_sends handle_response_slot
  by_cases h : method = "getPlatformVersion" <;> simp [h]

/-- C5: every response is a success carrying a value or a not-implemented
response; the error shape is never produced. -/
theorem C5_response_is_success_or_not_implemented (method : String)
    (args : FlValue) (o : UnameOutcome) :
    ((∃ v, cozy_data_plugin_handle_method_call method args o = .success v) ∨
        cozy_data_plugin_handle_method_call method args o = .notImplemented) ∧
      responseKind (cozy_data_plugin_handle_method_call method args o)
        ≠ .error := by
  unfold cozy_data_plugin_handle_method_call get_platform_version
  constructor
  · split
    · exact Or.inl ⟨_, rfl⟩
    · exact Or.inr rfl
  · split <;> simp [responseKind]

/-- C6: dispatch is a pure, stateless function of the method name: two
calls with the same name — whatever their argument payloads, uname
outcomes, or plugin instances — produce responses of the same kind, the
instance is never modified, and any sequence of calls produces responses
that each depend only on their own call, with no accumulated state. -/
theorem C6_dispatch_pure_and_stateless (st st2 : CozyDataPlugin) (m : String)
    (a a2 : FlValue) (o o2 : UnameOutcome) (evs : List MethodCallEvent) :
    responseKind (method_call_cb st ⟨m, a, o⟩).2
        = responseKind (method_call_cb st2 ⟨m, a2, o2⟩).2 ∧
      (method_call_cb st ⟨m, a, o⟩).1 = st ∧
      (runCalls st evs).1 = st ∧
      (runCalls st evs).2
        = evs.map (fun ev =>
            cozy_data_plugin_handle_method_call ev.method ev.args ev.outcome) := by
  refine ⟨?_, rfl, ?_, ?_⟩
  · unfold method_call_cb cozy_data_plugin_handle_method_call
    by_cases h : m = "getPlatformVersion" <;> simp [h, responseKind, get_platform_version]
  · induction evs generalizing st with
    | nil => rfl
    | cons ev rest ih => simp [runCalls, method_call_cb, ih st]
  · induction evs generalizing st with
    | nil => rfl
    | cons ev rest ih => simp [runCalls, method_call_cb, ih st]

/-- C7: when the uname call fails or yields an empty version field, the
query still produces a success response carrying a string; no error-shaped
response is produced and no alternative path exists. -/
theorem C7_empty_or_failed_uname_still_success (o : UnameOutcome)
    (h : o = .fail ∨ (unameResult o).version = "") :
    ∃ s : String,
      get_platform_version o = .success (.string s) ∧
        cozy_data_plugin_handle_method_call "getPlatformVersion" (.string "") o
          = .success (.string s) ∧
        responseKind (get_platform_version o) ≠ .error := by
  refine ⟨"Linux " ++ (unameResult o).version, rfl, ?_, ?_⟩
  · simp [cozy_data_plugin_handle_method_call, get_platform_version]
  · simp [get_platform_version, responseKind]

theorem C7_empty_or_failed_uname_still_success_witness :
    (UnameOutcome.fail = .fail ∨ (unameResult .fail).version = "") ∧
      ∃ s : String,
        get_platform_version .fail = .success (.string s) ∧
          cozy_data_plugin_handle_method_call "getPlatformVersion" (.string "")
              .fail
            = .success (.string s) ∧
          responseKind (get_platform_version .fail) ≠ .error :=
  ⟨Or.inl rfl, C7_empty_or_failed_uname_still_success .fail (Or.inl rfl)⟩

/-- C8: registration creates the method channel under exactly the name
"cozy_data" and installs the method-call handler on that channel. -/
theorem C8_registers_cozy_data_channel_with_handler :
    cozy_data_plugin_register_with_registrar.name = "cozy_data" ∧
      cozy_data_plugin_register_with_registrar.handler = some method_call_cb :=
  ⟨rfl, rfl⟩

/-- C9: the success payload is "Linux " followed by the utsname `version`
field for every uname outcome; in particular, on a host whose `release`
and `version` fields differ, it is not built from the `release` field. -/
theorem C9_payload_uses_utsname_version_field (o : UnameOutcome) :
    get_platform_version o
        = .success (.string ("Linux " ++ (unameResult o).version)) ∧
      get_platform_version
          (.ok ⟨"Linux", "host", "5.15.0-generic", "#1 SMP", "x86_64"⟩)
        ≠ .success (.string ("Linux " ++ "5.15.0-generic")) :=
  ⟨rfl, by decide⟩

/-- C10: on every dispatch path the `response` variable is assigned (never
null) when `fl_method_call_respond` runs, and because the utsname struct is
zero-initialised the payload is a well-defined string even when uname
fails, namely "Linux " followed by the empty version field. -/
theorem C10_response_assigned_and_payload_defined_on_failure
    (method : String) (o : UnameOutcome) :
    (handle_response_slot method o).isSome = true ∧
      get_platform_version .fail
        = .success (.string ("Linux " ++ utsnameZeroInit.version)) := by
  constructor
  · unfold handle_response_slot
    split <;> rfl
  · rfl
